import Mathlib

/-!
Verification model of the rl-aviation-sim-env core: the XPlaneConnect wire
codec (src/xpc.py), the flight-interface variants and observation fusion
(src/interface/physics_engine_interface.py), and the episode coordinator
(src/global_env.py).

Byte buffers are lists of natural numbers (one per byte).  IEEE-754 float
decoding is abstracted by decoder parameters (functions from byte groups to
rationals), so theorems about buffer structure hold for every decoder.
Encoded outgoing packets are modelled at the struct.pack field level.
-/

namespace AviationSim

/-- One field of an encoded outgoing packet, mirroring the individual
struct.pack calls in src/xpc.py: the 4-byte tag plus pad byte, an unsigned
byte, a signed byte, a little-endian single, or a little-endian double. -/
inductive Packed where
  | tag (bytes : List Nat)
  | byte (b : Int)
  | sbyte (b : Int)
  | f32 (v : Rat)
  | f64 (v : Rat)
  deriving DecidableEq, Repr

/-- Decidable equality for Except results, so closed statements about
encoder outcomes can be settled by decide. -/
instance {e a : Type} [DecidableEq e] [DecidableEq a] : DecidableEq (Except e a) := fun x y =>
  match x, y with
  | .ok u, .ok w =>
    if h : u = w then .isTrue (by rw [h]) else .isFalse (by intro hh; cases hh; exact h rfl)
  | .error u, .error w =>
    if h : u = w then .isTrue (by rw [h]) else .isFalse (by intro hh; cases hh; exact h rfl)
  | .ok _, .error _ => .isFalse (by intro hh; cases hh)
  | .error _, .ok _ => .isFalse (by intro hh; cases hh)

/-- The ASCII bytes of the POSI tag. -/
def posiTag : List Nat := [80, 79, 83, 73]

/-- The ASCII bytes of the CTRL tag. -/
def ctrlTag : List Nat := [67, 84, 82, 76]

/-- Python int() applied to a float truncates toward zero: the quotient of
the absolute numerator by the denominator, with the sign restored. -/
def intTrunc (q : Rat) : Int :=
  if 0 ≤ q.num then ((q.num.toNat / q.den : Nat) : Int)
  else -(((-q.num).toNat / q.den : Nat) : Int)

/-- Absolute value on the rationals (Python abs). -/
def ratAbs (q : Rat) : Rat := if q < 0 then -q else q

/-- buffer[a:b] on a byte list, as used by struct.unpack_from offsets. -/
def bytesSub (l : List Nat) (a b : Nat) : List Nat := (l.drop a).take (b - a)

/-- XPlaneConnect.sendPOSI (src/xpc.py lines 151-166).  Validates the value
count (1..7) and aircraft number (0..20), then packs tag+pad, the aircraft
byte, and all 7 slots, each slot holding the caller value or the sentinel
-998, the first 3 slots as doubles and the rest as singles.  An error means
ValueError was raised before sendUDP was called. -/
def sendPOSI (values : List Rat) (ac : Int) : Except Unit (List Packed) :=
  if values.length < 1 || 7 < values.length then .error ()
  else if ac < 0 || 20 < ac then .error ()
  else .ok (Packed.tag posiTag :: Packed.byte ac ::
    (List.range 7).map (fun i =>
      let val : Rat := if i < values.length then values.getD i 0 else -998
      if i < 3 then Packed.f64 val else Packed.f32 val))

/-- One of the 6 fixed slots packed by XPlaneConnect.sendCTRL: slot 4 (gear)
substitutes -1 for a value within 1e-4 of the -998 sentinel and is packed as
a signed byte via Python int(); struct.pack rejects a byte outside
[-128, 127].  The other slots are singles. -/
def ctrlSlot (values : List Rat) (i : Nat) : Except Unit Packed :=
  let val : Rat := if i < values.length then values.getD i 0 else -998
  if i = 4 then
    let val2 : Rat := if ratAbs (val + 998) < 1 / 10000 then -1 else val
    let b : Int := intTrunc val2
    if b < -128 || 127 < b then .error () else .ok (Packed.sbyte b)
  else .ok (Packed.f32 val)

/-- The slot loop of sendCTRL over the given slot indices, stopping at the
first slot whose packing raises (the Python loop raises there and nothing
is sent). -/
def ctrlSlotsAux (values : List Rat) : List Nat → Except Unit (List Packed)
  | [] => .ok []
  | i :: rest =>
    match ctrlSlot values i with
    | .error e => .error e
    | .ok p =>
      match ctrlSlotsAux values rest with
      | .error e => .error e
      | .ok ps => .ok (p :: ps)

/-- XPlaneConnect.sendCTRL (src/xpc.py lines 186-205).  Validates the value
count (1..7) and aircraft number (0..20), packs tag+pad, the 6 fixed slots,
the aircraft byte, and a 7th float only when exactly 7 values were given.
An error means an exception was raised before sendUDP was called. -/
def sendCTRL (values : List Rat) (ac : Int) : Except Unit (List Packed) :=
  if values.length < 1 || 7 < values.length then .error ()
  else if ac < 0 || 20 < ac then .error ()
  else
    match ctrlSlotsAux values (List.range 6) with
    | .error e => .error e
    | .ok slots =>
      .ok (Packed.tag ctrlTag :: slots ++ [Packed.byte ac] ++
        (if values.length = 7 then [Packed.f32 (values.getD 6 0)] else []))

/-- XPlaneConnect.getPOSI response decoding (src/xpc.py lines 130-149).
Branches on the payload length: 34 bytes unpacks "<4sxBfffffff" (all seven
fields single precision), 46 bytes unpacks "<4sxBdddffff" (the first three
fields double precision); any other length is a malformed response and
yields None.  The tag must read POSI; byte 5 (the aircraft id) is dropped
by result[2:].  f32 and f64 are the single- and double-precision decoders. -/
def getPOSIDecode (f32 f64 : List Nat → Rat) (buf : List Nat) : Option (List Rat) :=
  if buf.length = 34 then
    if buf.take 4 = posiTag then
      some ((List.range 7).map (fun i => f32 (bytesSub buf (6 + 4 * i) (10 + 4 * i))))
    else none
  else if buf.length = 46 then
    if buf.take 4 = posiTag then
      some ([f64 (bytesSub buf 6 14), f64 (bytesSub buf 14 22), f64 (bytesSub buf 22 30)] ++
        (List.range 4).map (fun i => f32 (bytesSub buf (30 + 4 * i) (34 + 4 * i))))
    else none
  else none

/-- XPlaneConnect.getPOSI including the transport read: a timeout or read
failure (no reply) yields None. -/
def getPOSI (f32 f64 : List Nat → Rat) (reply : Option (List Nat)) : Option (List Rat) :=
  match reply with
  | none => none
  | some buf => getPOSIDecode f32 f64 buf

/-- struct.unpack_from of rowLen little-endian singles at the given offset. -/
def readRow (f32 : List Nat → Rat) (buf : List Nat) (offset rowLen : Nat) : List Rat :=
  (List.range rowLen).map (fun j => f32 (bytesSub buf (offset + 4 * j) (offset + 4 * j + 4)))

/-- The row loop of XPlaneConnect.getDREFs (src/xpc.py lines 253-263), with
the remaining row count as fuel.  Reading the row-length byte past the end
of the buffer raises struct.error (the error case); a row whose floats would
run past the buffer appends an empty row and continues with the offset
advanced only past the length byte, exactly as the Python loop does. -/
def getDREFsLoop (f32 : List Nat → Rat) (buf : List Nat) :
    Nat → Nat → List (List Rat) → Except Unit (List (List Rat))
  | 0, _, acc => .ok acc.reverse
  | i + 1, offset, acc =>
    if offset + 1 ≤ buf.length then
      if offset + 1 + buf.getD offset 0 * 4 > buf.length then
        getDREFsLoop f32 buf i (offset + 1) ([] :: acc)
      else
        getDREFsLoop f32 buf i (offset + 1 + buf.getD offset 0 * 4)
          (readRow f32 buf (offset + 1) (buf.getD offset 0) :: acc)
    else .error ()

/-- XPlaneConnect.getDREFs response handling (src/xpc.py lines 244-270) for a
request of n datarefs.  No reply (timeout) or a reply shorter than 6 bytes
yields n empty rows; otherwise the result-count byte at offset 5 drives the
row loop, and an exception inside the loop also yields n empty rows. -/
def getDREFs (f32 : List Nat → Rat) (n : Nat) (reply : Option (List Nat)) : List (List Rat) :=
  match reply with
  | none => List.replicate n []
  | some buf =>
    if buf.length < 6 then List.replicate n []
    else
      match getDREFsLoop f32 buf (buf.getD 5 0) 6 [] with
      | .ok rows => rows
      | .error _ => List.replicate n []

/-- Specification-style front-to-back parse of the row section of a DREF
reply: result row i is the i-th row of the reply, so the parse is in reply
order by construction; none marks the mid-parse failure where a row-length
byte would be read past the end of the buffer.  The accumulator loop
getDREFsLoop is proven below to implement exactly this parse. -/
def parseRows (f32 : List Nat → Rat) (buf : List Nat) :
    Nat → Nat → Option (List (List Rat))
  | 0, _ => some []
  | i + 1, offset =>
    if offset + 1 ≤ buf.length then
      if offset + 1 + buf.getD offset 0 * 4 > buf.length then
        (parseRows f32 buf i (offset + 1)).map (fun rest => [] :: rest)
      else
        (parseRows f32 buf i (offset + 1 + buf.getD offset 0 * 4)).map
          (fun rest => readRow f32 buf (offset + 1) (buf.getD offset 0) :: rest)
    else none

/-! ## Flight interface variants (src/interface/physics_engine_interface.py)

`XPlaneInterface.getObs` consumes the already-decoded results of
`getDREFs` (source A: a list of rows, each a list of floats; the client
never returns None but the method guards for it, so A is an Option) and
`getPOSI` (source B: a 7-field tuple or None).  The Python isinstance and
is-None guards on list-typed data are vacuous for the values those client
calls produce and collapse in this model. -/

/-- The unified all-zero 7-field observation. -/
def zeros7 : List Rat := List.replicate 7 0

/-- Source-A validity test of getObs (lines 403-405): None or fewer than 7
rows is invalid. -/
def drefBad (A : Option (List (List Rat))) : Bool :=
  match A with
  | none => true
  | some a => decide (a.length < 7)

/-- Source-B validity test of getObs (lines 408-410 and 426-428): None or
fewer than 6 fields is invalid. -/
def posiBad (B : Option (List Rat)) : Bool :=
  match B with
  | none => true
  | some b => decide (b.length < 6)

/-- The POSI-only fallback observation (lines 412-420): altitude, pitch,
roll, heading from indices 2..5, the latitude slot from index 1 and the
longitude slot from index 0 of the POSI tuple, and 0.0 airspeed. -/
def fallbackPOSIObs (b : List Rat) : List Rat :=
  [b.getD 2 0, b.getD 3 0, b.getD 4 0, b.getD 5 0, b.getD 1 0, b.getD 0 0, 0]

/-- Airspeed extraction from source A (lines 434-452): the head of row 6
clamped through max(0.0, .), defaulting to 0.0 when the row is missing or
empty. -/
def airspeedOf (a : List (List Rat)) : Rat :=
  if 6 < a.length ∧ 0 < (a.getD 6 []).length then max 0 ((a.getD 6 []).headD 0) else 0

/-- The guarded per-row head extraction used by the DREF branch of getObs
(lines 458-483): the head of row i when the row exists and is non-empty,
0.0 otherwise. -/
def drefField (a : List (List Rat)) (i : Nat) : Rat :=
  if i < a.length ∧ 0 < (a.getD i []).length then (a.getD i []).headD 0 else 0

/-- XPlaneInterface.getObs (src/interface/physics_engine_interface.py lines
369-532).  Not initialized: zeros.  Source A invalid: POSI fallback when B
is valid, zeros when both are invalid.  Otherwise use_dref is forced to
True when B is invalid (lines 426-432), airspeed always comes from A row 6,
and the chosen branch fills altitude, pitch, roll, heading, latitude,
longitude: the DREF branch from row heads 0,1,2,3,5,4, the POSI branch from
indices 2,3,4,5,1,0 (an IndexError there, impossible for a valid B, would
be caught and replaced by defaults — the final locals() default also
produces the same zeros row). -/
def XPlaneInterface.getObs (initialized : Bool) (A : Option (List (List Rat)))
    (B : Option (List Rat)) (use_dref : Bool) : List Rat :=
  if initialized = false then zeros7
  else if drefBad A then
    if posiBad B then zeros7 else fallbackPOSIObs (B.getD [])
  else
    let a := A.getD []
    let ud := posiBad B || use_dref
    let airspeed := airspeedOf a
    if ud then
      [drefField a 0, drefField a 1, drefField a 2, drefField a 3,
       drefField a 5, drefField a 4, airspeed]
    else
      match B with
      | some b =>
        if 6 ≤ b.length then
          [b.getD 2 0, b.getD 3 0, b.getD 4 0, b.getD 5 0, b.getD 1 0, b.getD 0 0, airspeed]
        else [0, 0, 0, 0, 0, 0, airspeed]
      | none => [0, 0, 0, 0, 0, 0, airspeed]

/-- A Python value returned across the unified sendCTRL interface: a boolean
or a list of floats. -/
inductive PyVal where
  | pybool (b : Bool)
  | pylist (l : List Rat)
  deriving DecidableEq, Repr

/-- Python truthiness of such a value: a list is truthy iff non-empty. -/
def pyTruthy : PyVal → Bool
  | .pybool b => b
  | .pylist l => !l.isEmpty

/-- XPlaneInterface.sendCTRL (lines 283-293): not initialized returns False;
a successful client call returns True; an exception from the client call is
caught and the method returns the 7-element zero list. -/
def XPlaneInterface.sendCTRL (initialized : Bool) (call : Except Unit Unit) : PyVal :=
  if initialized = false then .pybool false
  else
    match call with
    | .ok _ => .pybool true
    | .error _ => .pylist (List.replicate 7 0)

/-- JSBSimInterface.sendCTRL (lines 88-114): not initialized returns False;
otherwise the boolean from jsb_client.sendAction, and False when the
conversion or the call raises. -/
def JSBSimInterface.sendCTRL (initialized : Bool) (call : Except Unit Bool) : PyVal :=
  if initialized = false then .pybool false
  else
    match call with
    | .ok b => .pybool b
    | .error _ => .pybool false

/-- A Python exception kind distinguished by the model: the AttributeError
raised by touching an attribute that was never assigned, and any other
exception. -/
inductive PyErr where
  | attributeError
  | exception
  deriving DecidableEq, Repr

/-- The attribute state of an XPlaneInterface instance relevant to
resetPOSI: whether a timeout_incidents attribute exists (with its value).
XPlaneInterface.__init__ (lines 271-281) assigns only xplane_client and
initialized, so the attribute starts absent. -/
structure XPlaneIfaceState where
  timeout_incidents : Option Nat
  deriving DecidableEq, Repr

/-- The attribute state right after XPlaneInterface.__init__. -/
def XPlaneIfaceInit : XPlaneIfaceState := { timeout_incidents := none }

/-- The acknowledgement poll loop of XPlaneInterface.resetPOSI (lines
353-363), iterated once per 0.5 s tick of the 10 s window; returns whether
the loop exited via break.  Every iteration evaluates
self.client.getDREF(...), but the instance has no client attribute (only
xplane_client), so every poll raises AttributeError, which the loop catches
and logs; the break is unreachable. -/
def resetAckPollLoop : Nat → Bool
  | 0 => false
  | n + 1 => resetAckPollLoop n

/-- XPlaneInterface.resetPOSI (lines 330-367).  firstBlock is the outcome of
the initial position / velocity-zeroing block; on its success the method
returns True immediately.  On its failure the handshake runs: the
sendDREF on the absent client attribute raises and is caught, then the poll
loop runs for the window; when it never breaks, the while-else clause
executes self.timeout_incidents += 1, which raises AttributeError when the
attribute is absent (as after __init__); with the attribute present the
counter increments and the method falls through returning None. -/
def XPlaneInterface.resetPOSI (firstBlock : Except PyErr Unit) (ticks : Nat)
    (st : XPlaneIfaceState) : XPlaneIfaceState × Except PyErr (Option Bool) :=
  match firstBlock with
  | .ok _ => (st, .ok (some true))
  | .error _ =>
    if resetAckPollLoop ticks then (st, .ok none)
    else
      match st.timeout_incidents with
      | none => (st, .error .attributeError)
      | some k => ({ st with timeout_incidents := some (k + 1) }, .ok none)

/-! ## Episode coordinator (src/global_env.py)

The coordinator is modelled over per-call oracles: each underlying client
call is an input describing whether that call returned (with its value) or
raised.  Timing statistics fields (total_delays, delay_count, max_delay,
packet_drops, backprop_times) only feed log output and are omitted from the
state. -/

/-- The ControlParameters fields the coordinator reads and writes. -/
structure ControlParameters where
  flag : Bool
  episodeReward : Rat
  totalReward : Rat
  state7 : List Rat
  isCollision : Bool
  deriving DecidableEq, Repr

/-- GlobalEnv state relevant to step and reset. -/
structure EnvState where
  cp : ControlParameters
  episode_steps : Nat
  max_episode_steps : Nat
  episodes_completed : Nat
  timeout_incidents : Nat
  parking_brake_released : Bool
  deriving DecidableEq, Repr

/-- GlobalEnv.reset (src/global_env.py lines 312-402).  Zeroes the episode
counters, rewards, flag and cached state7, clears a pending collision,
releases the parking brake (failure caught and logged, lines 335-341), then
calls client.resetPOSI with the initial position at line 345 with no
surrounding try: an exception from resetPOSI propagates out of reset.  On
success reset returns the zeroed observation.  brake and resetP are the
outcomes of the two client calls; the state paired with an error is the
state at the raise point, since Python mutations before it persist. -/
def GlobalEnv.reset (brake : Except PyErr Unit) (resetP : Except PyErr (Option Bool))
    (s : EnvState) : EnvState × Except PyErr (List Rat) :=
  let s1 : EnvState := { s with
    cp := { s.cp with episodeReward := 0, totalReward := 0, flag := false, state7 := List.replicate 7 0 }
    episode_steps := 0
    parking_brake_released := false }
  let s2 : EnvState :=
    if s1.cp.isCollision then { s1 with cp := { s1.cp with isCollision := false } } else s1
  let s3 : EnvState :=
    match brake with
    | .ok _ => { s2 with parking_brake_released := true }
    | .error _ => s2
  match resetP with
  | .error e => (s3, .error e)
  | .ok _ => (s3, .ok (List.replicate 7 0))

/-- Outcomes of the client and collaborator calls made during one attempt of
GlobalEnv.step: client.sendCTRL, client.getObs, the collision detector
snapshot, client.isCrash, and (for the in-step reset on crash) the two
client calls reset makes. -/
structure AttemptIO where
  sendCTRLCall : Except PyErr Unit
  getObsCall : Except PyErr (List Rat)
  collision : Bool
  isCrashCall : Except PyErr Bool
  resetBrake : Except PyErr Unit
  resetPOSICall : Except PyErr (Option Bool)

/-- The 4-tuple observable part of a step return (observation, reward,
terminated, truncated); the info dict is empty. -/
structure StepReturn where
  obs : List Rat
  reward : Rat
  terminated : Bool
  truncated : Bool
  deriving DecidableEq, Repr

/-- One attempt of the step body either raises (with the state at the raise
point) or returns. -/
inductive AttemptResult where
  | raised (s : EnvState)
  | returned (s : EnvState) (ret : StepReturn)
  deriving DecidableEq, Repr

/-- The reward computation of GlobalEnv.step (lines 192-215) from the action
and the validated observation. -/
def rewardCalc (act : List Rat) (fo : List Rat) : Rat :=
  let altitude := fo.getD 0 0
  let pitch := fo.getD 1 0
  let roll := fo.getD 2 0
  let speed := fo.getD 6 0
  let throttle := act.getD 3 0
  if 200 < altitude ∧ 30 < speed then
    if altitude < 700 then
      5 * throttle + (if 5 ≤ pitch ∧ pitch ≤ 20 then 1 else -1)
        + (if |roll| < 15 then 1 else -1)
    else
      (if 8 ≤ pitch ∧ pitch ≤ 15 then 2 else -1)
        + (if |roll| < 10 then 2 else -1)
        + (if 80 ≤ speed ∧ speed ≤ 300 then 2 else -1)
  else
    10 * throttle + (if 0 < speed then min (speed / 10) 3 else 0) - |roll| * (2 / 10)

/-- The tail of a successful step attempt (lines 265-292): record the episode
reward, add it to the total, raise the flag when the step budget is
reached, on a raised flag bank and clear the total reward, and return the
cached state7 with terminated = flag or isCollision. -/
def stepTail (s : EnvState) (reward : Rat) : AttemptResult :=
  let s1 : EnvState :=
    { s with cp := { s.cp with episodeReward := reward, totalReward := s.cp.totalReward + reward } }
  let s2 : EnvState :=
    if s1.max_episode_steps ≤ s1.episode_steps then { s1 with cp := { s1.cp with flag := true } }
    else s1
  if s2.cp.flag then
    let s3 : EnvState :=
      { s2 with
        episodes_completed := s2.episodes_completed + 1
        cp := { s2.cp with totalReward := 0 } }
    .returned s3
      { obs := s3.cp.state7
        reward := s2.cp.totalReward
        terminated := s3.cp.flag || s3.cp.isCollision
        truncated := false }
  else
    .returned s2
      { obs := s2.cp.state7
        reward := s2.cp.episodeReward
        terminated := s2.cp.flag || s2.cp.isCollision
        truncated := false }

/-- One attempt of the body of GlobalEnv.step (lines 110-292).  Building act
raises IndexError when fewer than 4 actions are supplied; client.sendCTRL
and client.getObs may raise (all three propagate to the attempt handler).
The observation-length validation (lines 165-175) substitutes the cached
state7, modelled as a plain list whose truthiness is non-emptiness, as when
it was last written by a step.  The crash check (lines 252-263) sits in an
inner try with a bare except: on a crash it raises the flag, charges -50,
and calls reset, whose return value is returned from step; an exception
from isCrash or from reset is swallowed and the attempt continues into the
tail. -/
def stepAttempt (actions : List Rat) (io : AttemptIO) (s : EnvState) : AttemptResult :=
  if actions.length < 4 then .raised s
  else
    let act : List Rat :=
      [actions.getD 0 0, actions.getD 1 0, actions.getD 2 0, actions.getD 3 0, 0, 0, 0]
    match io.sendCTRLCall with
    | .error _ => .raised s
    | .ok _ =>
      match io.getObsCall with
      | .error _ => .raised s
      | .ok obs =>
        let foState : List Rat × EnvState :=
          if obs.length = 7 then (obs, { s with cp := { s.cp with state7 := obs } })
          else if s.cp.state7.isEmpty = false then (s.cp.state7, s)
          else (List.replicate 7 0, { s with cp := { s.cp with state7 := List.replicate 7 0 } })
        let fo := foState.1
        let s1 := foState.2
        let reward := rewardCalc act fo
        let s2 : EnvState :=
          if io.collision then { s1 with cp := { s1.cp with isCollision := true } } else s1
        match io.isCrashCall with
        | .error _ => stepTail s2 reward
        | .ok crash =>
          if crash then
            let s3 : EnvState :=
              { s2 with
                cp := { s2.cp with flag := true, totalReward := s2.cp.totalReward - 50 }
                episodes_completed := s2.episodes_completed + 1 }
            match GlobalEnv.reset io.resetBrake io.resetPOSICall s3 with
            | (s4, .ok robs) =>
              .returned s4 { obs := robs, reward := 0, terminated := true, truncated := false }
            | (s4, .error _) => stepTail s4 reward
          else stepTail s2 reward

/-- Everything step yields in the model: the returned 4-tuple, the final
state, how many attempts ran, and the time.sleep durations performed
between attempts. -/
structure StepOutcome where
  ret : StepReturn
  state : EnvState
  attempts : Nat
  sleeps : List Rat
  deriving DecidableEq, Repr

/-- The retry loop of GlobalEnv.step (lines 109-304): k is the 0-based
attempt index, remaining the attempts left including this one.  A returned
body ends the loop; a raised body on the last attempt (attempt ==
max_retries - 1) returns the cached state7 with the current episodeReward
and flag fields; otherwise step sleeps 1.0 s and retries.  The fuel-0 case
is unreachable from step, which starts with remaining = 3. -/
def stepLoop (actions : List Rat) (ios : Nat → AttemptIO) :
    Nat → Nat → EnvState → List Rat → StepOutcome
  | k, 0, s, sl =>
    { ret := { obs := s.cp.state7, reward := s.cp.episodeReward, terminated := s.cp.flag, truncated := false }
      state := s
      attempts := k
      sleeps := sl }
  | k, remaining + 1, s, sl =>
    match stepAttempt actions (ios k) s with
    | .returned s2 ret => { ret := ret, state := s2, attempts := k + 1, sleeps := sl }
    | .raised s2 =>
      if remaining = 0 then
        { ret := { obs := s2.cp.state7, reward := s2.cp.episodeReward, terminated := s2.cp.flag, truncated := false }
          state := s2
          attempts := k + 1
          sleeps := sl }
      else stepLoop actions ios (k + 1) remaining s2 (sl ++ [1])

/-- GlobalEnv.step (src/global_env.py lines 97-304).  At entry the
termination flag is cleared, episodeReward is zeroed and episode_steps is
incremented (lines 99-101); then the body runs under the retry loop with
max_retries = 3 and a 1.0 s sleep between attempts. -/
def GlobalEnv.step (actions : List Rat) (ios : Nat → AttemptIO) (s : EnvState) : StepOutcome :=
  let s1 : EnvState :=
    { s with
      cp := { s.cp with flag := false, episodeReward := 0 }
      episode_steps := s.episode_steps + 1 }
  stepLoop actions ios 0 3 s1 []

/-! ## Helper lemmas -/

theorem take_of_set_le {α : Type} (v : α) :
    ∀ (l : List α) (i n : Nat), n ≤ i → (l.set i v).take n = l.take n := by
  intro l
  induction l with
  | nil => intro i n _; rfl
  | cons a t ih =>
    intro i n h
    cases i with
    | zero =>
      cases n with
      | zero => rfl
      | succ m => omega
    | succ j =>
      cases n with
      | zero => rfl
      | succ m =>
        simp only [List.set_cons_succ, List.take_succ_cons]
        rw [ih j m (Nat.le_of_succ_le_succ h)]

theorem drop_of_set_lt {α : Type} (v : α) :
    ∀ (l : List α) (i n : Nat), i < n → (l.set i v).drop n = l.drop n := by
  intro l
  induction l with
  | nil => intro i n _; rfl
  | cons a t ih =>
    intro i n h
    cases n with
    | zero => omega
    | succ m =>
      cases i with
      | zero => rfl
      | succ j =>
        simp only [List.set_cons_succ, List.drop_succ_cons]
        exact ih j m (Nat.lt_of_succ_lt_succ h)

theorem bytesSub_set_of_lt (l : List Nat) (v : Nat) (i a b : Nat) (h : i < a) :
    bytesSub (l.set i v) a b = bytesSub l a b := by
  unfold bytesSub
  rw [drop_of_set_lt v l i a h]

theorem resetAckPollLoop_eq_false : ∀ n, resetAckPollLoop n = false := by
  intro n
  induction n with
  | zero => rfl
  | succ m ih => simpa [resetAckPollLoop] using ih

/-- A successful reply-order parse yields exactly one row per unit of fuel
(per announced row). -/
theorem parseRows_length (f32 : List Nat → Rat) (buf : List Nat) :
    ∀ (fuel offset : Nat) (rows : List (List Rat)),
      parseRows f32 buf fuel offset = some rows → rows.length = fuel := by
  intro fuel
  induction fuel with
  | zero =>
    intro offset rows h
    simp only [parseRows] at h
    cases h
    rfl
  | succ m ih =>
    intro offset rows h
    simp only [parseRows] at h
    split at h
    · split at h
      · cases hp : parseRows f32 buf m (offset + 1) with
        | none => rw [hp] at h; cases h
        | some tail =>
          rw [hp] at h
          cases h
          simpa using ih _ _ hp
      · cases hp : parseRows f32 buf m (offset + 1 + buf.getD offset 0 * 4) with
        | none => rw [hp] at h; cases h
        | some tail =>
          rw [hp] at h
          cases h
          simpa using ih _ _ hp
    · cases h

/-- The accumulator loop of getDREFs implements the reply-order parse: it
fails exactly when the parse fails, and otherwise returns the accumulator
(reversed) followed by the parsed rows in reply order. -/
theorem getDREFsLoop_eq_parseRows (f32 : List Nat → Rat) (buf : List Nat) :
    ∀ (fuel offset : Nat) (acc : List (List Rat)),
      getDREFsLoop f32 buf fuel offset acc
        = match parseRows f32 buf fuel offset with
          | none => .error ()
          | some tail => .ok (acc.reverse ++ tail) := by
  intro fuel
  induction fuel with
  | zero =>
    intro offset acc
    simp [getDREFsLoop, parseRows]
  | succ m ih =>
    intro offset acc
    simp only [getDREFsLoop, parseRows]
    split
    · split
      · rw [ih]
        cases parseRows f32 buf m (offset + 1) with
        | none => rfl
        | some tail => simp
      · rw [ih]
        cases parseRows f32 buf m (offset + 1 + buf.getD offset 0 * 4) with
        | none => rfl
        | some tail => simp
    · rfl

/-! ## Claims about the wire codec -/

/-- C5: the position decoder branches on payload length, not on aircraft id:
a 34-byte payload decodes every field, the lat/lon/alt triple included,
with the single-precision decoder; a 46-byte payload decodes the triple
with the double-precision decoder; any other length is rejected as a
malformed response (None, no exception); and the result is invariant under
changing byte 5, the aircraft-id byte of the reply. -/
theorem getPOSI_branches_on_length (f32 f64 : List Nat → Rat) (buf : List Nat) (v : Nat) :
    (buf.length ≠ 34 → buf.length ≠ 46 → getPOSIDecode f32 f64 buf = none)
    ∧ (buf.length = 34 → buf.take 4 = posiTag →
        ∃ l, getPOSIDecode f32 f64 buf = some l ∧ l.length = 7 ∧
          l.take 3 = [f32 (bytesSub buf 6 10), f32 (bytesSub buf 10 14), f32 (bytesSub buf 14 18)])
    ∧ (buf.length = 46 → buf.take 4 = posiTag →
        ∃ l, getPOSIDecode f32 f64 buf = some l ∧ l.length = 7 ∧
          l.take 3 = [f64 (bytesSub buf 6 14), f64 (bytesSub buf 14 22), f64 (bytesSub buf 22 30)])
    ∧ getPOSIDecode f32 f64 (buf.set 5 v) = getPOSIDecode f32 f64 buf := by
  have hbs : ∀ a b, 6 ≤ a → bytesSub (buf.set 5 v) a b = bytesSub buf a b := by
    intro a b ha
    exact bytesSub_set_of_lt buf v 5 a b (by omega)
  refine ⟨?_, ?_, ?_, ?_⟩
  · intro h34 h46
    simp [getPOSIDecode, h34, h46]
  · intro h34 htag
    have hd : getPOSIDecode f32 f64 buf
        = some ((List.range 7).map fun i => f32 (bytesSub buf (6 + 4 * i) (10 + 4 * i))) := by
      simp [getPOSIDecode, h34, htag]
    exact ⟨_, hd, by simp, rfl⟩
  · intro h46 htag
    have hd : getPOSIDecode f32 f64 buf
        = some ([f64 (bytesSub buf 6 14), f64 (bytesSub buf 14 22), f64 (bytesSub buf 22 30)] ++
            (List.range 4).map fun i => f32 (bytesSub buf (30 + 4 * i) (34 + 4 * i))) := by
      simp [getPOSIDecode, h46, htag]
    exact ⟨_, hd, by simp, rfl⟩
  · have hlen : (buf.set 5 v).length = buf.length := by simp
    have htk : (buf.set 5 v).take 4 = buf.take 4 := take_of_set_le v buf 5 4 (by omega)
    unfold getPOSIDecode
    rw [hlen, htk]
    by_cases h34 : buf.length = 34
    · by_cases ht : buf.take 4 = posiTag
      · simp only [h34, ht, if_pos, if_true]
        congr 1
        apply List.map_congr_left
        intro i _
        rw [hbs _ _ (by omega)]
      · simp [ht]
    · by_cases h46 : buf.length = 46
      · by_cases ht : buf.take 4 = posiTag
        · simp only [h34, h46, ht, if_neg, if_pos, if_true, if_false]
          rw [hbs 6 14 (by omega), hbs 14 22 (by omega), hbs 22 30 (by omega)]
          have hm : List.map (fun i => f32 (bytesSub (buf.set 5 v) (30 + 4 * i) (34 + 4 * i)))
                (List.range 4)
              = List.map (fun i => f32 (bytesSub buf (30 + 4 * i) (34 + 4 * i)))
                (List.range 4) := by
            apply List.map_congr_left
            intro i _
            rw [hbs _ _ (by omega)]
          rw [hm]
          simp
        · simp [ht]
      · simp [h34, h46]

/-- A concrete single-precision decoder, used to instantiate decoder
parameters in closed statements. -/
def f32zero : List Nat → Rat := fun _ => 0

/-- C5 witness: on a concrete 34-byte POSI reply all conjuncts apply. -/
theorem getPOSI_branches_on_length_witness :
    ∃ l, getPOSIDecode f32zero f32zero (posiTag ++ List.replicate 30 0) = some l ∧
      l.length = 7 ∧
      l.take 3 = [f32zero (bytesSub (posiTag ++ List.replicate 30 0) 6 10),
        f32zero (bytesSub (posiTag ++ List.replicate 30 0) 10 14),
        f32zero (bytesSub (posiTag ++ List.replicate 30 0) 14 18)] :=
  (getPOSI_branches_on_length f32zero f32zero (posiTag ++ List.replicate 30 0) 0).2.1
    (by decide) (by decide)

/-- C4 counterexample: getDREFs for 2 requested datarefs, given a
well-formed reply whose result-count byte is 1 (5 header bytes, count byte
1, then one empty row), returns 1 row, not 2. -/
theorem getDREFs_count_byte_counterexample :
    (getDREFs f32zero 2 (some [0, 0, 0, 0, 0, 1, 0])).length = 1 ∧
      (getDREFs f32zero 2 (some [0, 0, 0, 0, 0, 1, 0])).length ≠ 2 := by
  decide

/-- C4 amended: getDREFs returns exactly n empty rows when the reply is
missing (timeout or read failure), when it is shorter than 6 bytes, and
when the row parse fails mid-reply (a row-length byte past the buffer); on
any other reply it returns exactly the rows of the front-to-back reply-order
parse, whose count is the result-count byte at offset 5 — which need not
equal n. -/
theorem getDREFs_row_count (f32 : List Nat → Rat) (n : Nat) (buf : List Nat) :
    getDREFs f32 n none = List.replicate n []
    ∧ (buf.length < 6 → getDREFs f32 n (some buf) = List.replicate n [])
    ∧ (6 ≤ buf.length → parseRows f32 buf (buf.getD 5 0) 6 = none →
        getDREFs f32 n (some buf) = List.replicate n [])
    ∧ (∀ rows, 6 ≤ buf.length → parseRows f32 buf (buf.getD 5 0) 6 = some rows →
        getDREFs f32 n (some buf) = rows ∧ rows.length = buf.getD 5 0) := by
  have hnot : 6 ≤ buf.length → ¬buf.length < 6 := by omega
  refine ⟨rfl, ?_, ?_, ?_⟩
  · intro h
    simp [getDREFs, h]
  · intro h6 hp
    simp only [getDREFs]
    rw [if_neg (hnot h6), getDREFsLoop_eq_parseRows, hp]
  · intro rows h6 hp
    constructor
    · simp only [getDREFs]
      rw [if_neg (hnot h6), getDREFsLoop_eq_parseRows, hp]
      simp
    · exact parseRows_length f32 buf _ _ _ hp

/-- C4 witness: the amended row-count facts at concrete replies — a missing
and a short reply give 3 empty rows each, and a 7-byte reply announcing one
empty row parses to exactly that row list of length equal to its count
byte. -/
theorem getDREFs_row_count_witness :
    getDREFs f32zero 3 none = List.replicate 3 []
    ∧ getDREFs f32zero 3 (some [1, 2, 3]) = List.replicate 3 []
    ∧ (getDREFs f32zero 3 (some [0, 0, 0, 0, 0, 1, 0]) = [[]]
        ∧ ([[]] : List (List Rat)).length = List.getD [0, 0, 0, 0, 0, 1, 0] 5 0) := by
  have h1 := getDREFs_row_count f32zero 3 [1, 2, 3]
  have h2 := getDREFs_row_count f32zero 3 [0, 0, 0, 0, 0, 1, 0]
  exact ⟨h1.1, h1.2.1 (by decide), h2.2.2.2 [[]] (by decide) (by decide)⟩

/-- C6: for any accepted values list (length 1..7) and aircraft number,
sendPOSI encodes tag, aircraft byte, and all 7 position slots; every slot
beyond the supplied values carries the sentinel -998, the first 3 slots are
double precision and the remaining 4 single precision. -/
theorem sendPOSI_pads_with_sentinel (values : List Rat) (ac : Int)
    (h1 : 1 ≤ values.length) (h2 : values.length ≤ 7) (h3 : 0 ≤ ac) (h4 : ac ≤ 20) :
    ∃ fields, sendPOSI values ac = .ok fields
      ∧ fields.length = 9
      ∧ fields.getD 0 (.byte 0) = .tag posiTag
      ∧ fields.getD 1 (.byte 0) = .byte ac
      ∧ ∀ i, i < 7 →
          fields.getD (2 + i) (.byte 0) =
            if i < 3 then Packed.f64 (if i < values.length then values.getD i 0 else -998)
            else Packed.f32 (if i < values.length then values.getD i 0 else -998) := by
  have hok : sendPOSI values ac = .ok (Packed.tag posiTag :: Packed.byte ac ::
      (List.range 7).map (fun i =>
        let val : Rat := if i < values.length then values.getD i 0 else -998
        if i < 3 then Packed.f64 val else Packed.f32 val)) := by
    unfold sendPOSI
    rw [if_neg (by simp only [Bool.or_eq_true, decide_eq_true_eq]; omega),
      if_neg (by simp only [Bool.or_eq_true, decide_eq_true_eq]; omega)]
  refine ⟨_, hok, by simp, rfl, rfl, ?_⟩
  intro i hi
  interval_cases i <;> rfl

/-- C6 witness: 3 supplied values leave slots 3..6 padded with the
single-precision sentinel -998 and slots 0..2 double precision. -/
theorem sendPOSI_pads_with_sentinel_witness :
    ∃ fields, sendPOSI [1, 2, 3] 0 = .ok fields
      ∧ fields.length = 9
      ∧ fields.getD 0 (.byte 0) = .tag posiTag
      ∧ fields.getD 1 (.byte 0) = .byte 0
      ∧ ∀ i, i < 7 →
          fields.getD (2 + i) (.byte 0) =
            if i < 3 then Packed.f64 (if i < ([1, 2, 3] : List Rat).length then List.getD [1, 2, 3] i 0 else -998)
            else Packed.f32 (if i < ([1, 2, 3] : List Rat).length then List.getD [1, 2, 3] i 0 else -998) :=
  sendPOSI_pads_with_sentinel [1, 2, 3] 0 (by decide) (by decide) (by decide) (by decide)

/-- C7: whenever sendCTRL accepts and encodes, the buffer is the tag, the 6
fixed slots, then the aircraft byte at position 7, and a 7th float follows
it exactly when 7 values were supplied; an aircraft number above 20 or more
than 7 values is rejected with no buffer produced (nothing is sent). -/
theorem sendCTRL_layout (values : List Rat) (ac : Int) :
    (∀ fields, sendCTRL values ac = .ok fields →
       fields.getD 0 (.byte 0) = .tag ctrlTag
       ∧ fields.length = (if values.length = 7 then 9 else 8)
       ∧ fields.getD 7 (.byte 0) = .byte ac
       ∧ (values.length = 7 → fields.getD 8 (.byte 0) = .f32 (values.getD 6 0)))
    ∧ (20 < ac → sendCTRL values ac = .error ())
    ∧ (7 < values.length → sendCTRL values ac = .error ()) := by
  refine ⟨?_, ?_, ?_⟩
  · intro fields hf
    unfold sendCTRL at hf
    split at hf
    · cases hf
    · split at hf
      · cases hf
      · cases hs : ctrlSlotsAux values (List.range 6) with
        | error e => rw [hs] at hf; cases hf
        | ok slots =>
          rw [hs] at hf
          have hs0 : ctrlSlot values 0 = .ok (.f32 (if 0 < values.length then values.getD 0 0 else -998)) := rfl
          have hs1 : ctrlSlot values 1 = .ok (.f32 (if 1 < values.length then values.getD 1 0 else -998)) := rfl
          have hs2 : ctrlSlot values 2 = .ok (.f32 (if 2 < values.length then values.getD 2 0 else -998)) := rfl
          have hs3 : ctrlSlot values 3 = .ok (.f32 (if 3 < values.length then values.getD 3 0 else -998)) := rfl
          have hs5 : ctrlSlot values 5 = .ok (.f32 (if 5 < values.length then values.getD 5 0 else -998)) := rfl
          cases h4 : ctrlSlot values 4 with
          | error e =>
            exfalso
            have : ctrlSlotsAux values (List.range 6) = .error e := by
              show ctrlSlotsAux values [0, 1, 2, 3, 4, 5] = .error e
              simp only [ctrlSlotsAux, hs0, hs1, hs2, hs3, h4, hs5]
            rw [this] at hs
            cases hs
          | ok p4 =>
            have hsl : slots = [.f32 (if 0 < values.length then values.getD 0 0 else -998),
                .f32 (if 1 < values.length then values.getD 1 0 else -998),
                .f32 (if 2 < values.length then values.getD 2 0 else -998),
                .f32 (if 3 < values.length then values.getD 3 0 else -998),
                p4,
                .f32 (if 5 < values.length then values.getD 5 0 else -998)] := by
              have : ctrlSlotsAux values (List.range 6) = .ok [.f32 (if 0 < values.length then values.getD 0 0 else -998),
                  .f32 (if 1 < values.length then values.getD 1 0 else -998),
                  .f32 (if 2 < values.length then values.getD 2 0 else -998),
                  .f32 (if 3 < values.length then values.getD 3 0 else -998),
                  p4,
                  .f32 (if 5 < values.length then values.getD 5 0 else -998)] := by
                show ctrlSlotsAux values [0, 1, 2, 3, 4, 5] = _
                simp only [ctrlSlotsAux, hs0, hs1, hs2, hs3, h4, hs5]
              rw [this] at hs
              cases hs
              rfl
            cases hf
            subst hsl
            by_cases h7 : values.length = 7 <;> simp [h7]
  · intro hac
    unfold sendCTRL
    split
    · rfl
    · rw [if_pos (by simp; omega)]
  · intro hv
    unfold sendCTRL
    rw [if_pos (by simp; omega)]

/-- C7 witness: a 3-value control send encodes 8 fields ending in the
aircraft byte, with no 7th float. -/
theorem sendCTRL_layout_witness :
    (sendCTRL [1, 2, 3] 0 = .ok [Packed.tag ctrlTag, .f32 1, .f32 2, .f32 3,
        .f32 (-998), .sbyte (-1), .f32 (-998), .byte 0])
    ∧ (List.getD [Packed.tag ctrlTag, .f32 1, .f32 2, .f32 3,
        .f32 (-998), .sbyte (-1), .f32 (-998), .byte 0] 7 (.byte 0) = .byte 0)
    ∧ sendCTRL [1, 2, 3, 4, 5, 6, 7, 8] 0 = .error ()
    ∧ sendCTRL [1, 2, 3] 21 = .error () := by
  have hok : sendCTRL [1, 2, 3] 0 = .ok [Packed.tag ctrlTag, .f32 1, .f32 2, .f32 3,
      .f32 (-998), .sbyte (-1), .f32 (-998), .byte 0] := by
    norm_num [sendCTRL, ctrlSlotsAux, ctrlSlot, ratAbs, intTrunc, List.range_succ]
  have h8 := (sendCTRL_layout ([1, 2, 3, 4, 5, 6, 7, 8] : List Rat) 0).2.2 (by decide)
  have h21 := (sendCTRL_layout ([1, 2, 3] : List Rat) 21).2.1 (by decide)
  exact ⟨hok, ((sendCTRL_layout [1, 2, 3] 0).1 _ hok).2.2.1, h8, h21⟩

/-! ## Claims about observation fusion -/

/-- A concrete position snapshot in the repository POSI layout
[latitude, longitude, altitude, pitch, roll, heading, gear]. -/
def posiEx : List Rat := [47, -122, 99, 2, 3, 180, 1]

/-- C1: in the POSI fallback of getObs (source A absent or under 7 rows,
source B with at least 6 fields), the observation takes altitude, pitch,
roll, heading from B indices 2..5, but writes B index 1 (the longitude
field of the POSI layout) into the latitude slot and B index 0 (the
latitude field) into the longitude slot: the two are swapped relative to
the position layout the repository itself uses. -/
theorem getObs_posi_fallback_swaps_lat_lon :
    XPlaneInterface.getObs true (some []) (some posiEx) true = [99, 2, 3, 180, -122, 47, 0]
    ∧ (XPlaneInterface.getObs true (some []) (some posiEx) true).getD 4 0 = posiEx.getD 1 0
    ∧ (XPlaneInterface.getObs true (some []) (some posiEx) true).getD 5 0 = posiEx.getD 0 0
    ∧ posiEx.getD 0 0 ≠ posiEx.getD 1 0 := by
  decide

/-- C8: whenever source A is invalid (absent or under 7 rows) and source B
is invalid (absent or under 6 fields), getObs returns the all-zero 7-field
observation, for either preferred source; being a total function, it
signals nothing to the caller. -/
theorem getObs_both_sources_unavailable (init : Bool) (A : Option (List (List Rat)))
    (B : Option (List Rat)) (d : Bool)
    (hA : drefBad A = true) (hB : posiBad B = true) :
    XPlaneInterface.getObs init A B d = zeros7 := by
  cases init with
  | false => rfl
  | true => simp [XPlaneInterface.getObs, hA, hB]

/-- C8 witness: both sources absent yields the zero observation. -/
theorem getObs_both_sources_unavailable_witness :
    XPlaneInterface.getObs true none none true = zeros7 :=
  getObs_both_sources_unavailable true none none true rfl rfl

/-- The airspeed clamp always yields a non-negative value. -/
theorem airspeedOf_nonneg (a : List (List Rat)) : 0 ≤ airspeedOf a := by
  unfold airspeedOf
  split
  · exact le_max_left 0 _
  · exact le_refl 0

/-- Slot 6 of any getObs observation is the clamped source-A airspeed when
source A is valid on an initialized interface, and 0 otherwise; in
particular it never depends on source B or on the preferred-source flag. -/
theorem getObs_airspeed_slot (init : Bool) (A : Option (List (List Rat)))
    (B : Option (List Rat)) (d : Bool) :
    (XPlaneInterface.getObs init A B d).getD 6 0 =
      if init = true ∧ drefBad A = false then airspeedOf (A.getD []) else 0 := by
  cases init with
  | false => rfl
  | true =>
    cases hA : drefBad A with
    | true =>
      cases hB : posiBad B with
      | true => simp [XPlaneInterface.getObs, hA, hB, zeros7]
      | false => simp [XPlaneInterface.getObs, hA, hB, fallbackPOSIObs]
    | false =>
      rw [if_pos ⟨rfl, rfl⟩]
      unfold XPlaneInterface.getObs
      rw [if_neg (by simp), if_neg (by simp [hA])]
      dsimp only
      split
      · rfl
      · split
        · split <;> rfl
        · rfl

/-- C9: the airspeed field (index 6) of every getObs observation is
non-negative, and it is a function of source A alone: two calls differing
only in source B and the preferred-source flag agree on it. -/
theorem getObs_airspeed_nonneg_from_A (init : Bool) (A : Option (List (List Rat)))
    (B B2 : Option (List Rat)) (d d2 : Bool) :
    0 ≤ (XPlaneInterface.getObs init A B d).getD 6 0
    ∧ (XPlaneInterface.getObs init A B d).getD 6 0
        = (XPlaneInterface.getObs init A B2 d2).getD 6 0 := by
  constructor
  · rw [getObs_airspeed_slot]
    split
    · exact airspeedOf_nonneg _
    · exact le_refl 0
  · rw [getObs_airspeed_slot, getObs_airspeed_slot]

/-- C10: on the simulator-driven variant a failing underlying sendCTRL is
caught and the method returns the 7-element zero list, a truthy non-boolean
value, while the local-physics variant returns the boolean False on its
failures: the two variants disagree at the unified interface. -/
theorem sendCTRL_variant_failure_mismatch :
    XPlaneInterface.sendCTRL true (.error ()) = .pylist (List.replicate 7 0)
    ∧ pyTruthy (XPlaneInterface.sendCTRL true (.error ())) = true
    ∧ JSBSimInterface.sendCTRL true (.error ()) = .pybool false
    ∧ pyTruthy (JSBSimInterface.sendCTRL true (.error ())) = false := by
  decide

/-! ## Claims about the episode coordinator -/

/-- C2: whenever the reset acknowledgement handshake of
XPlaneInterface.resetPOSI runs and its 10 s window elapses without the
acknowledgement (which is every run: the polled client attribute does not
exist, so no poll can succeed), the while-else increment of
timeout_incidents raises AttributeError on an interface fresh from
construction — the attribute was never assigned — instead of counting the
incident; GlobalEnv.reset calls resetPOSI outside any try, so reset
propagates the exception instead of returning, and the GlobalEnv
timeout_incidents counter stays unchanged. -/
theorem resetPOSI_timeout_raises_attribute_error (ticks : Nat) (e : PyErr)
    (brake : Except PyErr Unit) (s : EnvState) :
    XPlaneInterface.resetPOSI (.error e) ticks XPlaneIfaceInit
      = (XPlaneIfaceInit, .error .attributeError)
    ∧ (GlobalEnv.reset brake
        (XPlaneInterface.resetPOSI (.error e) ticks XPlaneIfaceInit).2 s).2
      = .error .attributeError
    ∧ (GlobalEnv.reset brake
        (XPlaneInterface.resetPOSI (.error e) ticks XPlaneIfaceInit).2 s).1.timeout_incidents
      = s.timeout_incidents := by
  have h1 : XPlaneInterface.resetPOSI (.error e) ticks XPlaneIfaceInit
      = (XPlaneIfaceInit, .error .attributeError) := by
    simp [XPlaneInterface.resetPOSI, resetAckPollLoop_eq_false, XPlaneIfaceInit]
  refine ⟨h1, ?_, ?_⟩
  · rw [h1]
    cases brake <;> by_cases hc : s.cp.isCollision <;> simp [GlobalEnv.reset, hc]
  · rw [h1]
    cases brake <;> by_cases hc : s.cp.isCollision <;> simp [GlobalEnv.reset, hc]

/-- A failure in the underlying sendCTRL call or in the underlying getObs
call makes the whole step attempt raise, with the environment state
untouched: both calls happen before any state mutation of the body. -/
theorem stepAttempt_raises_of_transport_error (actions : List Rat) (io : AttemptIO)
    (h : (∃ e, io.sendCTRLCall = .error e) ∨ (∃ e, io.getObsCall = .error e)) :
    ∀ s, stepAttempt actions io s = .raised s := by
  intro s
  unfold stepAttempt
  split
  · rfl
  · cases hs : io.sendCTRLCall with
    | error e => rfl
    | ok u =>
      cases hg : io.getObsCall with
      | error e => rfl
      | ok obs =>
        exfalso
        rcases h with ⟨e, he⟩ | ⟨e, he⟩
        · rw [hs] at he
          cases he
        · rw [hg] at he
          cases he

/-- Attempt outcomes in which every underlying client call raises. -/
def iosFail : Nat → AttemptIO := fun _ =>
  { sendCTRLCall := .error .exception
    getObsCall := .error .exception
    collision := false
    isCrashCall := .error .exception
    resetBrake := .error .exception
    resetPOSICall := .error .exception }

/-- A mid-training environment state: the terminal flag still set by the
previous step, accumulated rewards and a cached observation present. -/
def s0 : EnvState :=
  { cp := { flag := true
            episodeReward := 5
            totalReward := 100
            state7 := [1, 2, 3, 4, 5, 6, 7]
            isCollision := false }
    episode_steps := 10
    max_episode_steps := 1000
    episodes_completed := 2
    timeout_incidents := 0
    parking_brake_released := true }

/-- C3 counterexample: with the termination flag set before the call and a
nonzero accumulated reward, a step whose 3 attempts all fail returns
terminated = false and reward 0 — not the flag as previously set, nor the
accumulated reward — because step clears both fields at entry. -/
theorem step_exhaustion_clears_flag_and_reward :
    s0.cp.flag = true
    ∧ s0.cp.episodeReward = 5
    ∧ s0.cp.totalReward = 100
    ∧ (GlobalEnv.step [0, 0, 0, 0] iosFail s0).ret.terminated = false
    ∧ (GlobalEnv.step [0, 0, 0, 0] iosFail s0).ret.reward = 0
    ∧ (GlobalEnv.step [0, 0, 0, 0] iosFail s0).attempts = 3 := by
  decide

/-- C3 amended: step makes at most 3 attempts with a 1.0 s sleep between
consecutive attempts (one fewer sleep than attempts made), and is a total
function of the call outcomes — no exception escapes.  When every attempt
fails in an underlying call, sendCTRL or getObs, step exhausts its budget
and returns the cached state7 observation unchanged, with reward 0.0 and
terminated = false (episodeReward and the termination flag are cleared at
step entry), truncated = false, after exactly 3 attempts. -/
theorem step_retry_budget (actions : List Rat) (ios : Nat → AttemptIO) (s : EnvState) :
    (GlobalEnv.step actions ios s).attempts ≤ 3
    ∧ (GlobalEnv.step actions ios s).sleeps
        = List.replicate ((GlobalEnv.step actions ios s).attempts - 1) 1
    ∧ ((∀ k, k < 3 →
          (∃ e, (ios k).sendCTRLCall = .error e) ∨ (∃ e, (ios k).getObsCall = .error e)) →
        (GlobalEnv.step actions ios s).ret
          = { obs := s.cp.state7, reward := 0, terminated := false, truncated := false }
        ∧ (GlobalEnv.step actions ios s).attempts = 3) := by
  have hgen : ∀ t : EnvState,
      (stepLoop actions ios 0 3 t []).attempts ≤ 3
      ∧ (stepLoop actions ios 0 3 t []).sleeps
          = List.replicate ((stepLoop actions ios 0 3 t []).attempts - 1) 1 := by
    intro t
    cases h0 : stepAttempt actions (ios 0) t with
    | returned s2 ret => exact ⟨by simp [stepLoop, h0], by simp [stepLoop, h0]⟩
    | raised s2 =>
      cases h1 : stepAttempt actions (ios 1) s2 with
      | returned s3 ret =>
        exact ⟨by simp [stepLoop, h0, h1], by simp [stepLoop, h0, h1]⟩
      | raised s3 =>
        cases h2 : stepAttempt actions (ios 2) s3 with
        | returned s4 ret =>
          exact ⟨by simp [stepLoop, h0, h1, h2], by simp [stepLoop, h0, h1, h2]⟩
        | raised s4 =>
          exact ⟨by simp [stepLoop, h0, h1, h2], by simp [stepLoop, h0, h1, h2]⟩
  refine ⟨(hgen _).1, (hgen _).2, ?_⟩
  intro hall
  constructor <;>
    simp [GlobalEnv.step, stepLoop,
      stepAttempt_raises_of_transport_error actions (ios 0) (hall 0 (by omega)),
      stepAttempt_raises_of_transport_error actions (ios 1) (hall 1 (by omega)),
      stepAttempt_raises_of_transport_error actions (ios 2) (hall 2 (by omega))]

/-- C3 witness for the amended statement, at the all-fail outcomes. -/
theorem step_retry_budget_witness :
    (GlobalEnv.step [0, 0, 0, 0] iosFail s0).attempts ≤ 3
    ∧ (GlobalEnv.step [0, 0, 0, 0] iosFail s0).sleeps
        = List.replicate ((GlobalEnv.step [0, 0, 0, 0] iosFail s0).attempts - 1) 1
    ∧ ((GlobalEnv.step [0, 0, 0, 0] iosFail s0).ret
          = { obs := s0.cp.state7, reward := 0, terminated := false, truncated := false }
        ∧ (GlobalEnv.step [0, 0, 0, 0] iosFail s0).attempts = 3) := by
  have h := step_retry_budget [0, 0, 0, 0] iosFail s0
  exact ⟨h.1, h.2.1, h.2.2 (fun k _ => Or.inl ⟨.exception, rfl⟩)⟩

end AviationSim
